import Mathlib

/-!
Verification of the grading pipeline of an AI education backend.

The definitions below are a shallow embedding of the Python sources
`apps/backend/ai/services/grading_service.py` and (for the default
marking-criterion synthesis) `apps/backend/ai/services/question_generator.py`.

Modelling conventions:
* Python `dict` payloads become Lean structures carrying exactly the keys the
  grading code reads; a key accessed with `.get(k, default)` becomes an
  `Option` field read with `getD`.
* Python numbers (ints and floats) are modelled as exact rationals.
* Python strings are Lean strings; the string primitives used by the source
  (`strip`, `lower`, `upper`, `split`, slicing, `in`, `startswith`,
  `replace`) are re-implemented below by structural recursion over the
  character list so that every definition evaluates inside the kernel.
* The external Gemini model is a parameter `gem : String → Except String String`
  mapping a prompt to either a response text or a call failure; Python float
  literal parsing (`float(s)`, which may raise `ValueError`) is a parameter
  `fp : String → Option ℚ`.
* The free-tier `asyncio.sleep` calls and wall-clock timestamps have no
  effect on the returned data and are not modelled.
-/

/-! ### Character and string primitives (models of the Python built-ins) -/

/-- The characters stripped by Python `str.strip()` (ASCII whitespace). -/
def pyIsSpace (c : Char) : Bool :=
  c == ' ' || c == '\t' || c == '\n' || c == '\x0d' || c == '\x0b' || c == '\x0c'

/-- Model of Python `str.strip()`. -/
def pyStrip (s : String) : String :=
  ⟨((s.data.dropWhile pyIsSpace).reverse.dropWhile pyIsSpace).reverse⟩

/-- Model of Python `str.lower()` (ASCII letters, as used by the source). -/
def pyLower (s : String) : String := ⟨s.data.map Char.toLower⟩

/-- Model of Python `str.upper()` (ASCII letters, as used by the source). -/
def pyUpper (s : String) : String := ⟨s.data.map Char.toUpper⟩

/-- Model of Python `len` on strings: number of characters. -/
def pyLen (s : String) : Nat := s.data.length

/-- `leadsList n h` holds when `n` is a leading segment of `h`. -/
def leadsList : List Char → List Char → Bool
  | [], _ => true
  | _ :: _, [] => false
  | a :: as, b :: bs => a == b && leadsList as bs

/-- `occursIn n h`: `n` occurs contiguously inside `h`; model of Python `in`
on strings. -/
def occursIn (n : List Char) : List Char → Bool
  | [] => n.isEmpty
  | c :: rest => leadsList n (c :: rest) || occursIn n rest

/-- Model of Python `str.startswith`. -/
def pyStartsWith (p s : String) : Bool := leadsList p.data s.data

/-- Model of Python slicing `s[:n]` (first `n` characters). -/
def pyTakeChars (n : Nat) (s : String) : String := ⟨s.data.take n⟩

/-- Model of Python slicing `s[n:]` (drop the first `n` characters). -/
def pyDropChars (n : Nat) (s : String) : String := ⟨s.data.drop n⟩

/-- Helper for `pySplitChar`: split on a separator character, keeping empty
pieces, as Python `str.split(sep)` does. -/
def splitCharAux (sep : Char) : List Char → List Char → List String
  | [], acc => [⟨acc.reverse⟩]
  | c :: rest, acc =>
    if c == sep then ⟨acc.reverse⟩ :: splitCharAux sep rest []
    else splitCharAux sep rest (c :: acc)

/-- Model of Python `str.split(sep)` for a one-character separator. -/
def pySplitChar (sep : Char) (s : String) : List String := splitCharAux sep s.data []

/-- Helper for `pyWords`. -/
def wordsAux : List Char → List Char → List String
  | [], acc => if acc.isEmpty then [] else [⟨acc.reverse⟩]
  | c :: rest, acc =>
    if pyIsSpace c then
      if acc.isEmpty then wordsAux rest [] else ⟨acc.reverse⟩ :: wordsAux rest []
    else wordsAux rest (c :: acc)

/-- Model of Python `str.split()` with no argument: split on whitespace runs,
dropping empty pieces. -/
def pyWords (s : String) : List String := wordsAux s.data []

/-- Fuel-driven helper for `pyReplace`; the fuel is the length of the scanned
list, which suffices because each step consumes at least one character. -/
def replaceAux (old new : List Char) : Nat → List Char → List Char
  | _, [] => []
  | 0, l => l
  | fuel + 1, c :: rest =>
    if leadsList old (c :: rest) && !old.isEmpty then
      new ++ replaceAux old new fuel ((c :: rest).drop old.length)
    else c :: replaceAux old new fuel rest

/-- Model of Python `str.replace(old, new)` (leftmost, non-overlapping). -/
def pyReplace (s old new : String) : String :=
  ⟨replaceAux old.data new.data s.data.length s.data⟩

/-- A word character for the regex class \w (letters, digits, underscore), as
used by the word-token regex of _extract_keywords on ASCII text. -/
def pyIsWordChar (c : Char) : Bool :=
  c.isAlpha || c.isDigit || c == '_'

/-- Helper for `pyWordTokens`. -/
def wordTokensAux : List Char → List Char → List String
  | [], acc => if acc.isEmpty then [] else [⟨acc.reverse⟩]
  | c :: rest, acc =>
    if pyIsWordChar c then wordTokensAux rest (c :: acc)
    else if acc.isEmpty then wordTokensAux rest []
    else ⟨acc.reverse⟩ :: wordTokensAux rest []

/-- Model of re.findall with the pattern \b\w+\b : the maximal runs of word
characters. -/
def pyWordTokens (s : String) : List String := wordTokensAux s.data []

/-- Duplicate removal keeping the first occurrence of each element.  Models
`list(set(...))` in `_extract_keywords`; CPython set order is unspecified,
and following the spec (section 4.1) the model fixes first-seen order. -/
def dedupFirstAux (seen : List String) : List String → List String
  | [] => []
  | x :: xs =>
    if seen.contains x then dedupFirstAux seen xs
    else x :: dedupFirstAux (x :: seen) xs

/-! ### Numeric helpers -/

/-- Round to the nearest integer, ties to even: the rounding used by Python
`round`. -/
def roundHalfEven (x : ℚ) : ℤ :=
  let f := ⌊x⌋
  let r := x - (f : ℚ)
  if r < 1 / 2 then f
  else if 1 / 2 < r then f + 1
  else if 2 ∣ f then f else f + 1

/-- Model of Python `round(x, 1)`.  The grading code only rounds values whose
exact decimal expansion is not a tie at the second decimal, where binary
floating point and exact rational rounding agree. -/
def round1 (x : ℚ) : ℚ := (roundHalfEven (x * 10) : ℚ) / 10

/-! ### Data model

Structures mirror the dict payloads of `grading_service.py`.  Fields read via
`.get(key, default)` where a missing key is meaningful are `Option`s.
-/

/-- A question of the question paper.  `qtype` models the `type` key;
`points` models the `points`/`marks` value (default 2) already resolved. -/
structure Question where
  id : String
  number : Option Nat := none
  question : String := ""
  qtype : String := "short_answer"
  points : ℚ := 2
  correct_answer : String := ""
  explanation : String := ""
deriving DecidableEq, Inhabited

/-- One submitted answer, keyed by question id. -/
structure StudentAnswer where
  question_id : String
  answer : String
deriving DecidableEq

/-- The `partial_credit_rules` sub-dict of a marking criterion. -/
structure CreditRules where
  case_sensitive : Option Bool := none
  min_keywords : Option Nat := none
  keyword_weight : Option ℚ := none
deriving DecidableEq

/-- A per-question marking criterion from a marking scheme.  `credit_rules`
models the `partial_credit_rules` key. -/
structure MarkingCriterion where
  question_id : String
  grading_method : Option String := none
  keywords : List String := []
  credit_rules : CreditRules := {}
  feedback_template : Option String := none
  ai_grading_prompt : Option String := none
deriving DecidableEq

/-- A marking scheme: the fields of the scheme dict read by the grading
service (`total_points`, read with default 0, and `criteria`). -/
structure MarkingScheme where
  total_points : ℚ := 0
  criteria : List MarkingCriterion := []
deriving DecidableEq

/-- The per-question grade dict produced by the graders.  Keys present only
in some payloads (`grading_method`, `keywords_matched`, `total_keywords`) are
`Option`s defaulting to `none`. -/
structure QuestionGrade where
  question_id : String
  question_number : Nat
  question_text : String
  student_answer : String
  points_possible : ℚ
  points_awarded : ℚ
  feedback : String
  correct_answer : String
  grade_percentage : ℚ
  grading_method : Option String := none
  keywords_matched : Option Nat := none
  total_keywords : Option Nat := none
deriving DecidableEq, Inhabited

/-- The aggregate result dict of `grade_submission` /
`grade_submission_with_scheme`.  Timing, model-name and overall-feedback keys
carry no graded data and are omitted. -/
structure SubmissionResult where
  success : Bool
  error : Option String := none
  total_score : ℚ := 0
  max_possible_score : ℚ := 0
  percentage : ℚ := 0
  grade : Option String := none
  detailed_feedback : List QuestionGrade := []
  marking_scheme_used : Bool := false
deriving DecidableEq

/-! ### grading_service.py : configuration and letter grades -/

/-- `self.max_feedback_length = 500` in `GradingService.__init__`. -/
def max_feedback_length : Nat := 500

/-- `_calculate_letter_grade`: letter grade from a percentage. -/
def calculate_letter_grade (percentage : ℚ) : String :=
  if percentage ≥ 97 then "A+"
  else if percentage ≥ 93 then "A"
  else if percentage ≥ 90 then "A-"
  else if percentage ≥ 87 then "B+"
  else if percentage ≥ 83 then "B"
  else if percentage ≥ 80 then "B-"
  else if percentage ≥ 77 then "C+"
  else if percentage ≥ 73 then "C"
  else if percentage ≥ 70 then "C-"
  else if percentage ≥ 67 then "D+"
  else if percentage ≥ 65 then "D"
  else "F"

/-! ### grading_service.py : prompts and response parsing -/

/-- `_create_grading_prompt`: the default grading prompt.  The Python
`f"EXPLANATION: {explanation}" if explanation else ""` conditional is the
`if` below; numeric interpolation uses `toString`. -/
def create_grading_prompt (question student_answer correct_answer explanation : String)
    (max_points : ℚ) : String :=
  "\nYou are an expert educator grading a student\x27s answer. Please evaluate the response fairly and provide constructive feedback.\n\nQUESTION:\n"
  ++ question
  ++ "\n\nCORRECT/SAMPLE ANSWER:\n"
  ++ correct_answer
  ++ "\n\n"
  ++ (if explanation ≠ "" then "EXPLANATION: " ++ explanation else "")
  ++ "\n\nSTUDENT\x27S ANSWER:\n"
  ++ student_answer
  ++ "\n\nGRADING CRITERIA:\n- Maximum points possible: "
  ++ toString max_points
  ++ "\n- Award full points for completely correct answers\n- Award partial credit for partially correct answers\n- Award 0 points for completely incorrect or irrelevant answers\n- Consider key concepts, accuracy, and understanding\n\nPlease respond in this exact format:\nPOINTS: [number between 0 and "
  ++ toString max_points
  ++ "]\nFEEDBACK: [Constructive feedback explaining the grade, highlighting what was correct/incorrect, max 200 words]\n\nExample:\nPOINTS: 3\nFEEDBACK: Good understanding of the main concept. You correctly identified X and Y, but missed Z. Consider reviewing the relationship between A and B for a complete answer.\n"

/-- The loop body of `_parse_grading_response`: a `POINTS:` line sets the
points (clamped into `[0, max_points]`, or 0 when `float()` fails); a
`FEEDBACK:` line sets the feedback (truncated after `max_feedback_length`
characters with an appended ellipsis); other lines are ignored.  Since a
matching line starts with the tag, splitting once on the first colon leaves
exactly the text after the tag. -/
def parseGradingLine (fp : String → Option ℚ) (max_points : ℚ)
    (acc : ℚ × String) (rawLine : String) : ℚ × String :=
  let line := pyStrip rawLine
  if pyStartsWith "POINTS:" line then
    let points_str := pyStrip (pyDropChars 7 line)
    match fp points_str with
    | some v => (max 0 (min v max_points), acc.2)
    | none => (0, acc.2)
  else if pyStartsWith "FEEDBACK:" line then
    let fb := pyStrip (pyDropChars 9 line)
    if max_feedback_length < pyLen fb then
      (acc.1, pyTakeChars max_feedback_length fb ++ "...")
    else (acc.1, fb)
  else acc

/-- The full response parse: fold `parseGradingLine` over the lines of the
stripped response, starting from 0 points and the default feedback. -/
def parse_grading_response (fp : String → Option ℚ) (response_text : String)
    (max_points : ℚ) : ℚ × String :=
  let lines := pySplitChar '\n' (pyStrip response_text)
  lines.foldl (parseGradingLine fp max_points) (0, "No feedback provided")

/-! ### grading_service.py : per-question graders -/

/-- `_fallback_grading`: keyword grading against the words of the correct
answer when the AI call fails. -/
def fallback_grading (question : Question) (student_answer : String)
    (points_possible : ℚ) : QuestionGrade :=
  let correct_answer := pyLower question.correct_answer
  let student_answer_lower := pyLower student_answer
  let manualReview : QuestionGrade :=
    { question_id := question.id
      question_number := question.number.getD 1
      question_text := question.question
      student_answer := student_answer
      points_possible := points_possible
      points_awarded := 0
      feedback := "Unable to grade automatically. Manual review required."
      correct_answer := question.correct_answer
      grade_percentage := 0 }
  if correct_answer ≠ "" ∧ 3 < pyLen correct_answer then
    let keywords := pyWords correct_answer
    let matched :=
      (keywords.filter (fun keyword => occursIn keyword.data student_answer_lower.data)).length
    if 0 < matched then
      let pscore := min points_possible (((matched : ℚ) / (keywords.length : ℚ)) * points_possible)
      { question_id := question.id
        question_number := question.number.getD 1
        question_text := question.question
        student_answer := student_answer
        points_possible := points_possible
        points_awarded := pscore
        feedback := "Partial credit awarded based on keyword matching. AI grading temporarily unavailable."
        correct_answer := question.correct_answer
        grade_percentage := if points_possible > 0 then pscore / points_possible * 100 else 0 }
    else manualReview
  else manualReview

/-- `_grade_open_ended`: build the default prompt, call Gemini, parse the
response; on a call failure fall back to `_fallback_grading`. -/
def grade_open_ended (gem : String → Except String String) (fp : String → Option ℚ)
    (question : Question) (student_answer : String) (points_possible : ℚ) : QuestionGrade :=
  let prompt := create_grading_prompt question.question student_answer
    question.correct_answer question.explanation points_possible
  match gem prompt with
  | Except.ok text =>
    let grading_result := parse_grading_response fp text points_possible
    { question_id := question.id
      question_number := question.number.getD 1
      question_text := question.question
      student_answer := student_answer
      points_possible := points_possible
      points_awarded := grading_result.1
      feedback := grading_result.2
      correct_answer := question.correct_answer
      grade_percentage := if points_possible > 0 then grading_result.1 / points_possible * 100 else 0 }
  | Except.error _ => fallback_grading question student_answer points_possible

/-- `_grade_with_exact_match`.  The source re-checks equality when both
normalized strings have length one; the re-check repeats the identical
comparison and is kept verbatim. -/
def grade_with_exact_match (question : Question) (student_answer : String)
    (points_possible : ℚ) (criteria : MarkingCriterion) : QuestionGrade :=
  let correct_answer := question.correct_answer
  let case_sensitive := criteria.credit_rules.case_sensitive.getD false
  let student_normalized :=
    if case_sensitive then pyStrip student_answer else pyUpper (pyStrip student_answer)
  let correct_normalized :=
    if case_sensitive then pyStrip correct_answer else pyUpper (pyStrip correct_answer)
  let is_correct0 := student_normalized == correct_normalized
  let is_correct :=
    if !is_correct0 && pyLen correct_normalized == 1 && pyLen student_normalized == 1 then
      student_normalized == correct_normalized
    else is_correct0
  let points_awarded := if is_correct then points_possible else 0
  let feedback := criteria.feedback_template.getD
    (if is_correct then "Correct answer."
     else "Incorrect. The correct answer is " ++ correct_answer ++ ".")
  { question_id := question.id
    question_number := question.number.getD 1
    question_text := question.question
    student_answer := student_answer
    points_possible := points_possible
    points_awarded := points_awarded
    feedback := feedback
    correct_answer := correct_answer
    grade_percentage := if points_possible > 0 then points_awarded / points_possible * 100 else 0
    grading_method := some "exact_match" }

/-- `sum(1 for keyword in keywords if keyword.lower() in student_answer_lower)`. -/
def matchCount (keywords : List String) (student_answer_lower : String) : Nat :=
  (keywords.filter
    (fun keyword => occursIn (pyLower keyword).data student_answer_lower.data)).length

/-- `_grade_with_keyword_match`: full points when all keywords occur, scaled
partial credit above the `min_keywords` threshold, else 0; with no keywords
the grader falls back to `_grade_open_ended`. -/
def grade_with_keyword_match (gem : String → Except String String) (fp : String → Option ℚ)
    (question : Question) (student_answer : String) (points_possible : ℚ)
    (criteria : MarkingCriterion) : QuestionGrade :=
  let keywords := criteria.keywords
  let min_keywords := criteria.credit_rules.min_keywords.getD (max 1 (keywords.length / 2))
  let keyword_weight := criteria.credit_rules.keyword_weight.getD 1
  if keywords = [] then grade_open_ended gem fp question student_answer points_possible
  else
    let student_answer_lower := pyLower student_answer
    let matched := matchCount keywords student_answer_lower
    let result : ℚ × String :=
      if keywords.length ≤ matched then
        (points_possible, criteria.feedback_template.getD "Excellent answer! All key points covered.")
      else if min_keywords ≤ matched then
        let pscore := ((matched : ℚ) / (keywords.length : ℚ)) * points_possible * keyword_weight
        (min points_possible pscore,
         criteria.feedback_template.getD
           ("Good answer with " ++ toString matched ++ "/" ++ toString keywords.length
            ++ " key points. Consider including: "
            ++ String.intercalate ", "
                 (keywords.filter
                   (fun k => !(occursIn (pyLower k).data student_answer_lower.data)))))
      else
        (0, criteria.feedback_template.getD
          ("Answer missing key points. Consider including: " ++ String.intercalate ", " keywords))
    { question_id := question.id
      question_number := question.number.getD 1
      question_text := question.question
      student_answer := student_answer
      points_possible := points_possible
      points_awarded := result.1
      feedback := result.2
      correct_answer := question.correct_answer
      grade_percentage := if points_possible > 0 then result.1 / points_possible * 100 else 0
      grading_method := some "keyword_match"
      keywords_matched := some matched
      total_keywords := some keywords.length }

/-- The prompt used by `_grade_with_ai_enhanced`: the scheme's custom prompt
with the student-answer placeholder substituted, or the default prompt when
the scheme supplies none. -/
def aiEnhancedPrompt (question : Question) (student_answer : String)
    (points_possible : ℚ) (ai_prompt : String) : String :=
  if ai_prompt ≠ "" then pyReplace ai_prompt "\x7bstudent_answer\x7d" student_answer
  else create_grading_prompt question.question student_answer
    question.correct_answer question.explanation points_possible

/-- `_grade_with_ai_enhanced`: call Gemini with the custom prompt and parse;
when Gemini is not configured, or the call fails, grade with
`_grade_with_keyword_match` on the same criterion. -/
def grade_with_ai_enhanced (gem : String → Except String String) (fp : String → Option ℚ)
    (gemini_ready : Bool) (question : Question) (student_answer : String)
    (points_possible : ℚ) (criteria : MarkingCriterion) (ai_prompt : String) : QuestionGrade :=
  if !gemini_ready then
    grade_with_keyword_match gem fp question student_answer points_possible criteria
  else
    match gem (aiEnhancedPrompt question student_answer points_possible ai_prompt) with
    | Except.ok text =>
      let grading_result := parse_grading_response fp text points_possible
      { question_id := question.id
        question_number := question.number.getD 1
        question_text := question.question
        student_answer := student_answer
        points_possible := points_possible
        points_awarded := grading_result.1
        feedback := grading_result.2
        correct_answer := question.correct_answer
        grade_percentage := if points_possible > 0 then grading_result.1 / points_possible * 100 else 0
        grading_method := some "ai_enhanced" }
    | Except.error _ =>
      grade_with_keyword_match gem fp question student_answer points_possible criteria

/-- Model of re.sub with the anchored pattern ^[A-D][\)\.]?\s* replaced by
the empty string: strip one leading option letter A-D, an optional bracket
or dot, and following whitespace.  The anchored pattern also matches a bare
leading letter with nothing after it. -/
def stripLetterTag (s : String) : String :=
  match s.data with
  | [] => s
  | c :: rest =>
    if c == 'A' || c == 'B' || c == 'C' || c == 'D' then
      match rest with
      | d :: rest2 =>
        if d == ')' || d == '.' then ⟨rest2.dropWhile pyIsSpace⟩
        else ⟨rest.dropWhile pyIsSpace⟩
      | [] => ⟨[]⟩
    else s

/-- `_grade_multiple_choice`: exact comparison after prefix-letter
normalization, also accepting a first-letter match. -/
def grade_multiple_choice (question : Question) (student_answer : String)
    (points_possible : ℚ) : QuestionGrade :=
  let correct_answer := pyStrip question.correct_answer
  let student_answer_clean := pyStrip student_answer
  let correct_normalized := pyStrip (stripLetterTag (pyUpper correct_answer))
  let student_normalized := pyStrip (stripLetterTag (pyUpper student_answer_clean))
  let is_correct :=
    pyUpper student_answer_clean == pyUpper correct_answer ||
    student_normalized == correct_normalized ||
    pyStartsWith (pyTakeChars 1 (pyUpper correct_answer)) (pyUpper student_answer_clean)
  let points_awarded := if is_correct then points_possible else 0
  let feedback :=
    if is_correct then "Correct!"
    else "Incorrect. The correct answer is " ++ correct_answer ++ "."
  { question_id := question.id
    question_number := question.number.getD 1
    question_text := question.question
    student_answer := student_answer
    points_possible := points_possible
    points_awarded := points_awarded
    feedback := feedback
    correct_answer := correct_answer
    grade_percentage := if points_possible > 0 then points_awarded / points_possible * 100 else 0 }

/-- `_grade_individual_question`: multiple choice by comparator, everything
else by the AI open-ended grader. -/
def grade_individual_question (gem : String → Except String String) (fp : String → Option ℚ)
    (question : Question) (student_answer : String) (points_possible : ℚ) : QuestionGrade :=
  if question.qtype == "multiple_choice" then
    grade_multiple_choice question student_answer points_possible
  else grade_open_ended gem fp question student_answer points_possible

/-- `_grade_individual_question_with_scheme`: find this question's criterion
(first match wins); with none, fall back to direct open-ended AI grading;
otherwise dispatch on `grading_method`, any unknown method defaulting to the
AI-enhanced path. -/
def grade_individual_question_with_scheme (gem : String → Except String String)
    (fp : String → Option ℚ) (gemini_ready : Bool) (question : Question)
    (student_answer : String) (points_possible : ℚ)
    (marking_scheme : MarkingScheme) : QuestionGrade :=
  match marking_scheme.criteria.find? (fun criteria => criteria.question_id == question.id) with
  | none => grade_open_ended gem fp question student_answer points_possible
  | some marking_criteria =>
    let grading_method := marking_criteria.grading_method.getD "keyword_match"
    let ai_grading_prompt := marking_criteria.ai_grading_prompt.getD ""
    if grading_method == "exact_match" then
      grade_with_exact_match question student_answer points_possible marking_criteria
    else if grading_method == "keyword_match" then
      grade_with_keyword_match gem fp question student_answer points_possible marking_criteria
    else if grading_method == "ai_enhanced" then
      grade_with_ai_enhanced gem fp gemini_ready question student_answer points_possible
        marking_criteria ai_grading_prompt
    else
      grade_with_ai_enhanced gem fp gemini_ready question student_answer points_possible
        marking_criteria ai_grading_prompt

/-! ### grading_service.py : submission aggregation -/

/-- The student-answer dict keyed by question_id, followed by the lookup with
an empty-string default: a dict comprehension keeps the last entry per key,
so the lookup scans the reversed list. -/
def answer_lookup (student_answers : List StudentAnswer) (question_id : String) : String :=
  match student_answers.reverse.find? (fun ans => ans.question_id == question_id) with
  | some ans => ans.answer
  | none => ""

/-- The grade entry appended when the looked-up student answer is empty or
whitespace-only; `num_prior` is the number of grades collected so far
(`len(question_grades)`). -/
def noAnswerGrade (question : Question) (points_possible : ℚ) (num_prior : Nat) : QuestionGrade :=
  { question_id := question.id
    question_number := question.number.getD (num_prior + 1)
    question_text := question.question
    student_answer := ""
    points_possible := points_possible
    points_awarded := 0
    feedback := "No answer provided"
    correct_answer := question.correct_answer
    grade_percentage := 0 }

/-- The shared per-question loop of `grade_submission` and
`grade_submission_with_scheme`: for each question look up its answer, either
record the no-answer entry (skipping the grader entirely) or invoke the
grader; accumulate the awarded total and the running sum of question points
(the latter is `max_possible_score` in the schemeless path).  Returns
`(question_grades, total_score, sum_of_points)`. -/
def gradeQuestions (grader : Question → String → ℚ → QuestionGrade)
    (student_answers : List StudentAnswer) :
    List Question → Nat → List QuestionGrade × ℚ × ℚ
  | [], _ => ([], 0, 0)
  | question :: rest, num_prior =>
    let question_points := question.points
    let student_answer := answer_lookup student_answers question.id
    if pyStrip student_answer = "" then
      let r := gradeQuestions grader student_answers rest (num_prior + 1)
      (noAnswerGrade question question_points num_prior :: r.1, r.2.1, question_points + r.2.2)
    else
      let g := grader question student_answer question_points
      let r := gradeQuestions grader student_answers rest (num_prior + 1)
      (g :: r.1, g.points_awarded + r.2.1, question_points + r.2.2)

/-- The early-return failure payloads of the two submission graders. -/
def failureResult (msg : String) : SubmissionResult :=
  { success := false, error := some msg, total_score := 0, max_possible_score := 0 }

/-- `grade_submission`: grade every question individually; the maximum score
is the sum of the question point values; `percentage` is rounded to one
decimal in the payload while the letter grade is computed from the unrounded
value. -/
def grade_submission (gem : String → Except String String) (fp : String → Option ℚ)
    (gemini_ready : Bool) (questions : List Question)
    (student_answers : List StudentAnswer) : SubmissionResult :=
  if !gemini_ready then failureResult "Auto-grading not available - Gemini API not configured"
  else if questions.isEmpty || student_answers.isEmpty then
    failureResult "Missing questions or student answers"
  else
    let r := gradeQuestions (grade_individual_question gem fp) student_answers questions 0
    let question_grades := r.1
    let total_score := r.2.1
    let max_possible_score := r.2.2
    let percentage := if max_possible_score > 0 then total_score / max_possible_score * 100 else 0
    { success := true
      total_score := total_score
      max_possible_score := max_possible_score
      percentage := round1 percentage
      grade := some (calculate_letter_grade percentage)
      detailed_feedback := question_grades }

/-- `grade_submission_with_scheme`: like `grade_submission` but each question
is graded through the marking scheme, and the maximum score is the scheme's
declared `total_points`; a missing scheme falls back to `grade_submission`. -/
def grade_submission_with_scheme (gem : String → Except String String)
    (fp : String → Option ℚ) (gemini_ready : Bool) (questions : List Question)
    (student_answers : List StudentAnswer) (marking_scheme : Option MarkingScheme) :
    SubmissionResult :=
  if !gemini_ready then failureResult "Auto-grading not available - Gemini API not configured"
  else if questions.isEmpty || student_answers.isEmpty then
    failureResult "Missing questions or student answers"
  else
    match marking_scheme with
    | none => grade_submission gem fp gemini_ready questions student_answers
    | some ms =>
      let r := gradeQuestions
        (fun question student_answer question_points =>
          grade_individual_question_with_scheme gem fp gemini_ready question student_answer
            question_points ms)
        student_answers questions 0
      let question_grades := r.1
      let total_score := r.2.1
      let max_possible_score := ms.total_points
      let percentage := if max_possible_score > 0 then total_score / max_possible_score * 100 else 0
      { success := true
        total_score := total_score
        max_possible_score := max_possible_score
        percentage := round1 percentage
        grade := some (calculate_letter_grade percentage)
        detailed_feedback := question_grades
        marking_scheme_used := true }

/-! ### question_generator.py : default marking criteria

These model `_create_default_criteria` and its helpers, used to compare the
grading service's missing-criterion behaviour against grading with a
synthesized default criterion.
-/

/-- The stop-word set of `_extract_keywords`. -/
def common_words : List String :=
  ["the", "a", "an", "and", "or", "but", "in", "on", "at", "to", "for",
   "of", "with", "by", "is", "are", "was", "were", "be", "been", "being",
   "have", "has", "had", "do", "does", "did", "will", "would", "could",
   "should", "may", "might", "can", "this", "that", "these", "those"]

/-- `_extract_keywords`: tokenize the lowered text, drop stop words and
tokens of length at most 2, deduplicate, keep at most 10.  CPython's
`list(set(...))` order is unspecified; the model keeps first-seen order. -/
def extract_keywords (text : String) : List String :=
  if text = "" then []
  else
    let words := pyWordTokens (pyLower text)
    let keywords := words.filter (fun word => !common_words.contains word && 2 < pyLen word)
    (dedupFirstAux [] keywords).take 10

/-- `_determine_grading_method`. -/
def determine_grading_method (question : Question) : String :=
  if question.qtype == "multiple_choice" then "exact_match"
  else if question.qtype == "short_answer" then
    if (pyWords question.correct_answer).length ≤ 3 then "exact_match" else "keyword_match"
  else if question.qtype == "essay" then "keyword_match"
  else "keyword_match"

/-- `_generate_feedback_template` (the placeholders are literal text in the
source). -/
def generate_feedback_template (question : Question) : String :=
  if question.qtype == "multiple_choice" then
    "Correct answer: \x7bcorrect_answer\x7d. \x7bexplanation\x7d"
  else if question.qtype == "short_answer" then
    "Key points to include: \x7bkeywords\x7d. \x7bexplanation\x7d"
  else if question.qtype == "essay" then
    "Consider these aspects: \x7bkeywords\x7d. \x7bexplanation\x7d"
  else "Review the key concepts: \x7bkeywords\x7d. \x7bexplanation\x7d"

/-- `_generate_ai_grading_prompt`: a per-type prompt template keeping the
literal `student_answer` placeholder for later substitution. -/
def generate_ai_grading_prompt (question : Question) : String :=
  if question.qtype == "multiple_choice" then
    "\nGrade this multiple choice answer:\nQuestion: " ++ question.question
    ++ "\nCorrect Answer: " ++ question.correct_answer
    ++ "\nStudent Answer: \x7bstudent_answer\x7d\nPoints Possible: " ++ toString question.points
    ++ "\n\nAward full points for exact match (case-insensitive).\nAward 0 points for incorrect answer.\n"
  else if question.qtype == "short_answer" then
    "\nGrade this short answer:\nQuestion: " ++ question.question
    ++ "\nCorrect Answer: " ++ question.correct_answer
    ++ "\nExplanation: " ++ question.explanation
    ++ "\nStudent Answer: \x7bstudent_answer\x7d\nPoints Possible: " ++ toString question.points
    ++ "\n\nKey points to look for: "
    ++ String.intercalate ", " (extract_keywords question.correct_answer)
    ++ "\n\nAward partial credit for including key concepts.\nAward full points for complete and accurate answer.\n"
  else
    "\nGrade this essay answer:\nQuestion: " ++ question.question
    ++ "\nCorrect Answer: " ++ question.correct_answer
    ++ "\nExplanation: " ++ question.explanation
    ++ "\nStudent Answer: \x7bstudent_answer\x7d\nPoints Possible: " ++ toString question.points
    ++ "\n\nKey concepts to evaluate: "
    ++ String.intercalate ", " (extract_keywords question.correct_answer)
    ++ "\n\nConsider:\n- Understanding of key concepts\n- Clarity of explanation\n- Completeness of answer\n- Accuracy of information\n"

/-- `_create_default_criteria`, restricted to the keys the grading service
reads (the synthesized dict also repeats question metadata such as `type`,
`points` and `correct_answer`, which the graders take from the question
itself). -/
def create_default_criteria (question : Question) : MarkingCriterion :=
  { question_id := question.id
    grading_method := some (determine_grading_method question)
    keywords := extract_keywords question.correct_answer
    credit_rules :=
      { case_sensitive := some false
        min_keywords := some (max 1 ((extract_keywords question.correct_answer).length / 2))
        keyword_weight := some 1 }
    feedback_template := some (generate_feedback_template question)
    ai_grading_prompt := some (generate_ai_grading_prompt question) }

/-! ### Concrete fixtures used by witnesses and counterexamples -/

/-- A Gemini stub whose every call fails. -/
def noGemini : String → Except String String :=
  fun _ => Except.error "Gemini API call failed: connection error"

/-- A float parser accepting nothing (every literal raises `ValueError`). -/
def noFloat : String → Option ℚ := fun _ => none

/-- A float parser accepting the integer literals used by the fixtures. -/
def smallFloat : String → Option ℚ := fun s =>
  if s = "2" then some 2
  else if s = "3" then some 3
  else if s = "6" then some 6
  else none

/-- First question of the three-question aggregation scenario (2 points). -/
def qAgg1 : Question :=
  { id := "q1", question := "First question", qtype := "short_answer",
    points := 2, correct_answer := "aa" }

/-- Second question of the aggregation scenario (5 points). -/
def qAgg2 : Question :=
  { id := "q2", question := "Second question", qtype := "short_answer",
    points := 5, correct_answer := "bb" }

/-- Third question of the aggregation scenario (10 points). -/
def qAgg3 : Question :=
  { id := "q3", question := "Third question", qtype := "short_answer",
    points := 10, correct_answer := "cc" }

/-- Answers of the aggregation scenario; each is a distinct marker word so
the Gemini stub can recognize which question a prompt grades. -/
def aggAnswers : List StudentAnswer :=
  [⟨"q1", "alpha"⟩, ⟨"q2", "beta"⟩, ⟨"q3", "gamma"⟩]

/-- A Gemini stub awarding 2, 3 and 6 points to the three scenario answers
(the prompt embeds the student answer, which identifies the question). -/
def aggGemini : String → Except String String := fun prompt =>
  if occursIn "alpha".data prompt.data then Except.ok "POINTS: 2\nFEEDBACK: ok"
  else if occursIn "beta".data prompt.data then Except.ok "POINTS: 3\nFEEDBACK: ok"
  else if occursIn "gamma".data prompt.data then Except.ok "POINTS: 6\nFEEDBACK: ok"
  else Except.error "unexpected prompt"

/-- The aggregation scenario run end to end. -/
def aggResult : SubmissionResult :=
  grade_submission aggGemini smallFloat true [qAgg1, qAgg2, qAgg3] aggAnswers

/-- A 10-point question fully answered, used against a scheme declaring only
1 total point. -/
def qOverflow : Question :=
  { id := "q1", question := "Capital of France?", qtype := "short_answer",
    points := 10, correct_answer := "Paris" }

/-- Scheme declaring `total_points = 1` for the 10-point question. -/
def schemeOverflow : MarkingScheme :=
  { total_points := 1,
    criteria := [{ question_id := "q1", grading_method := some "exact_match" }] }

/-- With-scheme grading where the earned score exceeds the declared total. -/
def overflowResult : SubmissionResult :=
  grade_submission_with_scheme noGemini noFloat true [qOverflow] [⟨"q1", "Paris"⟩]
    (some schemeOverflow)

/-- Essay question used for the missing-criterion scenario. -/
def qEssay : Question :=
  { id := "q1", question := "Explain photosynthesis", qtype := "essay",
    points := 5, correct_answer := "photosynthesis process" }

/-- A scheme containing no criterion for `qEssay`. -/
def schemeNoCrit : MarkingScheme := { total_points := 5, criteria := [] }

/-- The same scheme with the synthesized default criterion for `qEssay`. -/
def schemeDefaultCrit : MarkingScheme :=
  { total_points := 5, criteria := [create_default_criteria qEssay] }

/-- Keyword-match criterion of the spec's partial-credit scenario. -/
def critKw4 : MarkingCriterion :=
  { question_id := "q1", grading_method := some "keyword_match",
    keywords := ["sun", "energy", "plants", "light"] }

/-- Question of the keyword-match scenario (4 points). -/
def qKw4 : Question :=
  { id := "q1", question := "How do plants get energy?", qtype := "short_answer",
    points := 4, correct_answer := "plants use sunlight" }

/-- Keyword-match criterion with a negative keyword weight. -/
def critNegWeight : MarkingCriterion :=
  { question_id := "q1", grading_method := some "keyword_match",
    keywords := ["aa", "bb", "cc", "dd"],
    credit_rules := { min_keywords := some 1, keyword_weight := some (-1) } }

/-- Question paired with `critNegWeight` (4 points). -/
def qNegWeight : Question :=
  { id := "q1", question := "List the codes", qtype := "short_answer",
    points := 4, correct_answer := "aa bb cc dd" }

/-- Scheme wrapping the negative-weight criterion. -/
def schemeNegWeight : MarkingScheme := { total_points := 4, criteria := [critNegWeight] }

/-- A feedback payload of 501 characters. -/
def longFeedback : String := ⟨List.replicate 501 'a'⟩

/-- A model response whose feedback exceeds the truncation threshold. -/
def longResponse : String := "FEEDBACK: " ++ longFeedback

/-! ### Bounds lemmas for the response parser -/

theorem pyLen_append (a b : String) : pyLen (a ++ b) = pyLen a + pyLen b := by
  simp [pyLen, String.data_append]

theorem parseGradingLine_points_bounds (fp : String → Option ℚ) (mp : ℚ) (hmp : 0 ≤ mp)
    (acc : ℚ × String) (line : String) (h : 0 ≤ acc.1 ∧ acc.1 ≤ mp) :
    0 ≤ (parseGradingLine fp mp acc line).1 ∧ (parseGradingLine fp mp acc line).1 ≤ mp := by
  by_cases h1 : pyStartsWith "POINTS:" (pyStrip line) = true
  · cases hv : fp (pyStrip (pyDropChars 7 (pyStrip line))) with
    | none => simp [parseGradingLine, h1, hv]; exact hmp
    | some v =>
      simp only [parseGradingLine, h1, hv, if_true]
      exact ⟨le_max_left 0 _, max_le hmp (min_le_right v mp)⟩
  · by_cases h2 : pyStartsWith "FEEDBACK:" (pyStrip line) = true
    · simp only [parseGradingLine, h1, h2, if_false, if_true, Bool.false_eq_true]
      split_ifs <;> exact h
    · simpa only [parseGradingLine, h1, h2, if_false, Bool.false_eq_true] using h

theorem foldl_parse_points_bounds (fp : String → Option ℚ) (mp : ℚ) (hmp : 0 ≤ mp) :
    ∀ (lines : List String) (acc : ℚ × String), 0 ≤ acc.1 → acc.1 ≤ mp →
      0 ≤ (lines.foldl (parseGradingLine fp mp) acc).1 ∧
        (lines.foldl (parseGradingLine fp mp) acc).1 ≤ mp
  | [], _, h1, h2 => ⟨h1, h2⟩
  | line :: rest, acc, h1, h2 => by
    rw [List.foldl_cons]
    have h := parseGradingLine_points_bounds fp mp hmp acc line ⟨h1, h2⟩
    exact foldl_parse_points_bounds fp mp hmp rest _ h.1 h.2

theorem parse_points_bounds (fp : String → Option ℚ) (t : String) (mp : ℚ) (hmp : 0 ≤ mp) :
    0 ≤ (parse_grading_response fp t mp).1 ∧ (parse_grading_response fp t mp).1 ≤ mp := by
  unfold parse_grading_response
  exact foldl_parse_points_bounds fp mp hmp _ _ le_rfl hmp

theorem parseGradingLine_feedback_len (fp : String → Option ℚ) (mp : ℚ)
    (acc : ℚ × String) (line : String) (h : pyLen acc.2 ≤ max_feedback_length + 3) :
    pyLen (parseGradingLine fp mp acc line).2 ≤ max_feedback_length + 3 := by
  by_cases h1 : pyStartsWith "POINTS:" (pyStrip line) = true
  · cases hv : fp (pyStrip (pyDropChars 7 (pyStrip line))) with
    | none => simpa [parseGradingLine, h1, hv] using h
    | some v => simpa [parseGradingLine, h1, hv] using h
  · by_cases h2 : pyStartsWith "FEEDBACK:" (pyStrip line) = true
    · simp only [parseGradingLine, h1, h2, if_false, if_true, Bool.false_eq_true]
      split_ifs with h3
      · rw [pyLen_append]
        have hx : pyLen (pyTakeChars max_feedback_length (pyStrip (pyDropChars 9 (pyStrip line)))) =
            max_feedback_length := by
          simp only [pyLen, pyTakeChars] at h3 ⊢
          rw [List.length_take]
          omega
        have hdots : pyLen "..." = 3 := rfl
        rw [hx, hdots]
      · exact le_trans (le_of_not_lt h3) (by norm_num)
    · simpa only [parseGradingLine, h1, h2, if_false, Bool.false_eq_true] using h

theorem foldl_parse_feedback_len (fp : String → Option ℚ) (mp : ℚ) :
    ∀ (lines : List String) (acc : ℚ × String), pyLen acc.2 ≤ max_feedback_length + 3 →
      pyLen ((lines.foldl (parseGradingLine fp mp) acc).2) ≤ max_feedback_length + 3
  | [], _, h => h
  | line :: rest, acc, h => by
    rw [List.foldl_cons]
    exact foldl_parse_feedback_len fp mp rest _ (parseGradingLine_feedback_len fp mp acc line h)

theorem parse_feedback_len (fp : String → Option ℚ) (t : String) (mp : ℚ) :
    pyLen (parse_grading_response fp t mp).2 ≤ max_feedback_length + 3 := by
  unfold parse_grading_response
  exact foldl_parse_feedback_len fp mp _ _ (by norm_num [pyLen, max_feedback_length])

/-! ### Bounds lemmas for the per-question graders -/

theorem fallback_grading_bounds (question : Question) (student_answer : String)
    (pp : ℚ) (hpp : 0 ≤ pp) :
    0 ≤ (fallback_grading question student_answer pp).points_awarded ∧
      (fallback_grading question student_answer pp).points_awarded ≤ pp := by
  simp only [fallback_grading]
  split_ifs <;>
    refine ⟨?_, ?_⟩ <;>
    first
      | exact le_rfl
      | exact hpp
      | exact min_le_left _ _
      | exact inf_le_left
      | exact le_min hpp (mul_nonneg (div_nonneg (Nat.cast_nonneg _) (Nat.cast_nonneg _)) hpp)

theorem grade_open_ended_bounds (gem : String → Except String String)
    (fp : String → Option ℚ) (question : Question) (student_answer : String)
    (pp : ℚ) (hpp : 0 ≤ pp) :
    0 ≤ (grade_open_ended gem fp question student_answer pp).points_awarded ∧
      (grade_open_ended gem fp question student_answer pp).points_awarded ≤ pp := by
  simp only [grade_open_ended]
  cases hgem : gem (create_grading_prompt question.question student_answer
      question.correct_answer question.explanation pp) with
  | ok text => exact parse_points_bounds fp text pp hpp
  | error e => exact fallback_grading_bounds question student_answer pp hpp

theorem grade_with_exact_match_bounds (question : Question) (student_answer : String)
    (pp : ℚ) (criteria : MarkingCriterion) (hpp : 0 ≤ pp) :
    0 ≤ (grade_with_exact_match question student_answer pp criteria).points_awarded ∧
      (grade_with_exact_match question student_answer pp criteria).points_awarded ≤ pp := by
  simp only [grade_with_exact_match]
  split_ifs <;> exact ⟨by first | exact hpp | exact le_rfl, by first | exact hpp | exact le_rfl⟩

theorem grade_with_keyword_match_bounds (gem : String → Except String String)
    (fp : String → Option ℚ) (question : Question) (student_answer : String)
    (pp : ℚ) (criteria : MarkingCriterion) (hpp : 0 ≤ pp)
    (hw : 0 ≤ criteria.credit_rules.keyword_weight.getD 1) :
    0 ≤ (grade_with_keyword_match gem fp question student_answer pp criteria).points_awarded ∧
      (grade_with_keyword_match gem fp question student_answer pp criteria).points_awarded ≤ pp := by
  simp only [grade_with_keyword_match]
  split_ifs with h1 <;>
    first
      | exact grade_open_ended_bounds gem fp question student_answer pp hpp
      | (refine ⟨?_, ?_⟩ <;>
          first
            | exact le_rfl
            | exact hpp
            | exact min_le_left _ _
            | exact inf_le_left
            | exact le_min hpp (mul_nonneg (mul_nonneg
                (div_nonneg (Nat.cast_nonneg _) (Nat.cast_nonneg _)) hpp) hw))

theorem grade_with_ai_enhanced_bounds (gem : String → Except String String)
    (fp : String → Option ℚ) (gemini_ready : Bool) (question : Question)
    (student_answer : String) (pp : ℚ) (criteria : MarkingCriterion) (ai_prompt : String)
    (hpp : 0 ≤ pp) (hw : 0 ≤ criteria.credit_rules.keyword_weight.getD 1) :
    0 ≤ (grade_with_ai_enhanced gem fp gemini_ready question student_answer pp criteria
        ai_prompt).points_awarded ∧
      (grade_with_ai_enhanced gem fp gemini_ready question student_answer pp criteria
        ai_prompt).points_awarded ≤ pp := by
  simp only [grade_with_ai_enhanced]
  by_cases h1 : (!gemini_ready) = true
  · rw [if_pos h1]
    exact grade_with_keyword_match_bounds gem fp question student_answer pp criteria hpp hw
  · rw [if_neg h1]
    cases hgem : gem (aiEnhancedPrompt question student_answer pp ai_prompt) with
    | ok text => exact parse_points_bounds fp text pp hpp
    | error e =>
      exact grade_with_keyword_match_bounds gem fp question student_answer pp criteria hpp hw

theorem grade_multiple_choice_bounds (question : Question) (student_answer : String)
    (pp : ℚ) (hpp : 0 ≤ pp) :
    0 ≤ (grade_multiple_choice question student_answer pp).points_awarded ∧
      (grade_multiple_choice question student_answer pp).points_awarded ≤ pp := by
  simp only [grade_multiple_choice]
  split_ifs <;> exact ⟨by first | exact hpp | exact le_rfl, by first | exact hpp | exact le_rfl⟩

theorem grade_individual_question_bounds (gem : String → Except String String)
    (fp : String → Option ℚ) (question : Question) (student_answer : String)
    (pp : ℚ) (hpp : 0 ≤ pp) :
    0 ≤ (grade_individual_question gem fp question student_answer pp).points_awarded ∧
      (grade_individual_question gem fp question student_answer pp).points_awarded ≤ pp := by
  simp only [grade_individual_question]
  split_ifs with h1
  · exact grade_multiple_choice_bounds question student_answer pp hpp
  · exact grade_open_ended_bounds gem fp question student_answer pp hpp

theorem grade_individual_question_with_scheme_bounds (gem : String → Except String String)
    (fp : String → Option ℚ) (gemini_ready : Bool) (question : Question)
    (student_answer : String) (pp : ℚ) (ms : MarkingScheme) (hpp : 0 ≤ pp)
    (hw : ∀ c ∈ ms.criteria, 0 ≤ c.credit_rules.keyword_weight.getD 1) :
    0 ≤ (grade_individual_question_with_scheme gem fp gemini_ready question student_answer
        pp ms).points_awarded ∧
      (grade_individual_question_with_scheme gem fp gemini_ready question student_answer
        pp ms).points_awarded ≤ pp := by
  simp only [grade_individual_question_with_scheme]
  cases hfind : ms.criteria.find? (fun criteria => criteria.question_id == question.id) with
  | none =>
    exact grade_open_ended_bounds gem fp question student_answer pp hpp
  | some marking_criteria =>
    have hwc := hw marking_criteria (List.mem_of_find?_eq_some hfind)
    dsimp only
    split_ifs with h1 h2 h3
    · exact grade_with_exact_match_bounds question student_answer pp marking_criteria hpp
    · exact grade_with_keyword_match_bounds gem fp question student_answer pp
        marking_criteria hpp hwc
    · exact grade_with_ai_enhanced_bounds gem fp gemini_ready question student_answer pp
        marking_criteria _ hpp hwc
    · exact grade_with_ai_enhanced_bounds gem fp gemini_ready question student_answer pp
        marking_criteria _ hpp hwc

/-! ### Lemmas about the aggregation loop -/

theorem gradeQuestions_length (grader : Question → String → ℚ → QuestionGrade)
    (student_answers : List StudentAnswer) :
    ∀ (qs : List Question) (n : Nat),
      (gradeQuestions grader student_answers qs n).1.length = qs.length
  | [], _ => rfl
  | q :: rest, n => by
    simp only [gradeQuestions]
    split_ifs <;>
      simp [gradeQuestions_length grader student_answers rest (n + 1)]

theorem gradeQuestions_sum_points (grader : Question → String → ℚ → QuestionGrade)
    (student_answers : List StudentAnswer) :
    ∀ (qs : List Question) (n : Nat),
      (gradeQuestions grader student_answers qs n).2.2 = (qs.map Question.points).sum
  | [], _ => rfl
  | q :: rest, n => by
    simp only [gradeQuestions]
    split_ifs <;>
      simp [gradeQuestions_sum_points grader student_answers rest (n + 1)]

theorem gradeQuestions_total_bounds (grader : Question → String → ℚ → QuestionGrade)
    (student_answers : List StudentAnswer)
    (hg : ∀ q ans p, 0 ≤ p →
      0 ≤ (grader q ans p).points_awarded ∧ (grader q ans p).points_awarded ≤ p) :
    ∀ (qs : List Question) (n : Nat), (∀ q ∈ qs, 0 ≤ q.points) →
      0 ≤ (gradeQuestions grader student_answers qs n).2.1 ∧
        (gradeQuestions grader student_answers qs n).2.1 ≤
          (gradeQuestions grader student_answers qs n).2.2
  | [], _, _ => ⟨le_rfl, le_rfl⟩
  | q :: rest, n, hq => by
    have hq0 : 0 ≤ q.points := hq q (List.mem_cons_self q rest)
    have ih := gradeQuestions_total_bounds grader student_answers hg rest (n + 1)
      (fun x hx => hq x (List.mem_cons_of_mem q hx))
    simp only [gradeQuestions]
    split_ifs with h1
    · dsimp only
      exact ⟨ih.1, le_trans ih.2 (by linarith)⟩
    · dsimp only
      have hb := hg q (answer_lookup student_answers q.id) q.points hq0
      exact ⟨by linarith [hb.1, ih.1], by linarith [hb.2, ih.2]⟩

theorem gradeQuestions_noanswer_entry (grader : Question → String → ℚ → QuestionGrade)
    (student_answers : List StudentAnswer) :
    ∀ (qs : List Question) (n i : Nat), i < qs.length →
      pyStrip (answer_lookup student_answers (qs.getD i default).id) = "" →
      (gradeQuestions grader student_answers qs n).1.getD i default =
        noAnswerGrade (qs.getD i default) (qs.getD i default).points (n + i)
  | [], _, i, hi, _ => absurd hi (by simp)
  | q :: rest, n, 0, _, hempty => by
    simp only [List.getD_cons_zero] at hempty ⊢
    simp only [gradeQuestions, hempty, if_pos]
    rfl
  | q :: rest, n, i + 1, hi, hempty => by
    simp only [List.getD_cons_succ] at hempty ⊢
    have hi' : i < rest.length := by simpa using hi
    have ih := gradeQuestions_noanswer_entry grader student_answers rest (n + 1) i hi' hempty
    simp only [gradeQuestions]
    split_ifs with h1 <;>
      simpa [List.getD_cons_succ, Nat.add_assoc, Nat.add_comm 1 i] using ih

/-! ### Rounding bounds -/

theorem roundHalfEven_bounds (x : ℚ) (B : ℤ) (h0 : 0 ≤ x) (hB : x ≤ (B : ℚ)) :
    0 ≤ roundHalfEven x ∧ roundHalfEven x ≤ B := by
  have hf0 : 0 ≤ ⌊x⌋ := Int.floor_nonneg.mpr h0
  have hfB : ⌊x⌋ ≤ B := by
    have := Int.floor_le_floor hB
    simpa using this
  have hxf : (⌊x⌋ : ℚ) ≤ x := Int.floor_le x
  simp only [roundHalfEven]
  split_ifs with h1 h2 h3
  · exact ⟨hf0, hfB⟩
  · have hlt : (⌊x⌋ : ℚ) < x := by linarith
    have : ⌊x⌋ < B := by
      have : (⌊x⌋ : ℚ) < (B : ℚ) := lt_of_lt_of_le hlt hB
      exact_mod_cast this
    exact ⟨by omega, by omega⟩
  · exact ⟨hf0, hfB⟩
  · have hlt : (⌊x⌋ : ℚ) < x := by linarith
    have : ⌊x⌋ < B := by
      have : (⌊x⌋ : ℚ) < (B : ℚ) := lt_of_lt_of_le hlt hB
      exact_mod_cast this
    exact ⟨by omega, by omega⟩

theorem round1_bounds_100 (x : ℚ) (h0 : 0 ≤ x) (h100 : x ≤ 100) :
    0 ≤ round1 x ∧ round1 x ≤ 100 := by
  have h := roundHalfEven_bounds (x * 10) 1000 (by linarith) (by push_cast; linarith)
  unfold round1
  constructor
  · have : (0 : ℚ) ≤ (roundHalfEven (x * 10) : ℚ) := by exact_mod_cast h.1
    linarith
  · have : (roundHalfEven (x * 10) : ℚ) ≤ 1000 := by exact_mod_cast h.2
    linarith

/-! ### Percentage bounds for the aggregators -/

theorem round1_zero : round1 0 = 0 := by
  norm_num [round1, roundHalfEven]

theorem grade_submission_percentage_bounds (gem : String → Except String String)
    (fp : String → Option ℚ) (gemini_ready : Bool) (questions : List Question)
    (student_answers : List StudentAnswer) (hq : ∀ q ∈ questions, 0 ≤ q.points) :
    0 ≤ (grade_submission gem fp gemini_ready questions student_answers).percentage ∧
      (grade_submission gem fp gemini_ready questions student_answers).percentage ≤ 100 := by
  unfold grade_submission
  split_ifs with h1 h2
  · exact ⟨le_rfl, by norm_num [failureResult]⟩
  · exact ⟨le_rfl, by norm_num [failureResult]⟩
  · dsimp only
    have hb := gradeQuestions_total_bounds (grade_individual_question gem fp) student_answers
      (fun q a p hp => grade_individual_question_bounds gem fp q a p hp) questions 0 hq
    by_cases hmax :
        (gradeQuestions (grade_individual_question gem fp) student_answers questions 0).2.2 > 0
    · rw [if_pos hmax]
      apply round1_bounds_100
      · have := div_nonneg hb.1 (le_of_lt hmax)
        linarith
      · have hdiv :
            (gradeQuestions (grade_individual_question gem fp) student_answers questions 0).2.1 /
              (gradeQuestions (grade_individual_question gem fp) student_answers questions 0).2.2 ≤
              1 := (div_le_one hmax).2 hb.2
        linarith
    · rw [if_neg hmax, round1_zero]
      exact ⟨le_rfl, by norm_num⟩

theorem grade_submission_zero_max (gem : String → Except String String)
    (fp : String → Option ℚ) (gemini_ready : Bool) (questions : List Question)
    (student_answers : List StudentAnswer)
    (hsum : (questions.map Question.points).sum = 0) :
    (grade_submission gem fp gemini_ready questions student_answers).percentage = 0 := by
  unfold grade_submission
  split_ifs with h1 h2
  · rfl
  · rfl
  · dsimp only
    rw [gradeQuestions_sum_points, hsum]
    norm_num [round1_zero]

theorem grade_submission_with_scheme_zero_max (gem : String → Except String String)
    (fp : String → Option ℚ) (gemini_ready : Bool) (questions : List Question)
    (student_answers : List StudentAnswer) (ms : MarkingScheme)
    (htp : ms.total_points = 0) :
    (grade_submission_with_scheme gem fp gemini_ready questions student_answers
      (some ms)).percentage = 0 := by
  unfold grade_submission_with_scheme
  split_ifs with h1 h2
  · rfl
  · rfl
  · dsimp only
    rw [htp]
    norm_num [round1_zero]

/-! ### Monotonicity of filtering -/

theorem filter_length_mono {α : Type} (l : List α) (p q : α → Bool)
    (h : ∀ a ∈ l, p a = true → q a = true) :
    (l.filter p).length ≤ (l.filter q).length := by
  induction l with
  | nil => simp
  | cons x xs ih =>
    have ih' := ih (fun a ha hpa => h a (List.mem_cons_of_mem x ha) hpa)
    by_cases hp : p x = true
    · have hq := h x (List.mem_cons_self x xs) hp
      simp only [List.filter_cons, hp, hq, if_true, List.length_cons]
      omega
    · by_cases hqx : q x = true <;>
        simp only [List.filter_cons, hp, hqx, if_true, if_false, Bool.false_eq_true,
          List.length_cons] <;>
        omega

theorem matchCount_le_length (keywords : List String) (s : String) :
    matchCount keywords s ≤ keywords.length := by
  unfold matchCount
  exact List.length_filter_le _ _

/-! ### Characterization of the keyword-match award -/

theorem grade_with_keyword_match_points_eq (gem : String → Except String String)
    (fp : String → Option ℚ) (question : Question) (student_answer : String)
    (pp : ℚ) (criteria : MarkingCriterion) (hk : criteria.keywords ≠ []) :
    (grade_with_keyword_match gem fp question student_answer pp criteria).points_awarded =
      (if criteria.keywords.length ≤ matchCount criteria.keywords (pyLower student_answer) then pp
       else if criteria.credit_rules.min_keywords.getD (max 1 (criteria.keywords.length / 2)) ≤
           matchCount criteria.keywords (pyLower student_answer) then
         min pp (((matchCount criteria.keywords (pyLower student_answer) : ℚ) /
             (criteria.keywords.length : ℚ)) * pp *
           criteria.credit_rules.keyword_weight.getD 1)
       else 0) := by
  simp only [grade_with_keyword_match]
  rw [if_neg hk]
  dsimp only
  split_ifs <;> rfl

set_option maxHeartbeats 1600000 in
/-- C6: for every percentage the letter grade is determined by inclusive
lower bounds (97 A+, 93 A, 90 A-, 87 B+, 83 B, 80 B-, 77 C+, 73 C, 70 C-,
67 D+, 65 D, else F); in particular 93.0 maps to A and 92.99 maps to A-. -/
theorem c6_letter_grade_thresholds :
    (∀ p : ℚ, 97 ≤ p → calculate_letter_grade p = "A+") ∧
    (∀ p : ℚ, 93 ≤ p → p < 97 → calculate_letter_grade p = "A") ∧
    (∀ p : ℚ, 90 ≤ p → p < 93 → calculate_letter_grade p = "A-") ∧
    (∀ p : ℚ, 87 ≤ p → p < 90 → calculate_letter_grade p = "B+") ∧
    (∀ p : ℚ, 83 ≤ p → p < 87 → calculate_letter_grade p = "B") ∧
    (∀ p : ℚ, 80 ≤ p → p < 83 → calculate_letter_grade p = "B-") ∧
    (∀ p : ℚ, 77 ≤ p → p < 80 → calculate_letter_grade p = "C+") ∧
    (∀ p : ℚ, 73 ≤ p → p < 77 → calculate_letter_grade p = "C") ∧
    (∀ p : ℚ, 70 ≤ p → p < 73 → calculate_letter_grade p = "C-") ∧
    (∀ p : ℚ, 67 ≤ p → p < 70 → calculate_letter_grade p = "D+") ∧
    (∀ p : ℚ, 65 ≤ p → p < 67 → calculate_letter_grade p = "D") ∧
    (∀ p : ℚ, p < 65 → calculate_letter_grade p = "F") ∧
    calculate_letter_grade 93 = "A" ∧ calculate_letter_grade (9299 / 100) = "A-" := by
  refine ⟨?_, ?_, ?_, ?_, ?_, ?_, ?_, ?_, ?_, ?_, ?_, ?_,
    by norm_num [calculate_letter_grade], by norm_num [calculate_letter_grade]⟩ <;>
    (intro p; intros; unfold calculate_letter_grade; split_ifs <;> first | rfl | linarith)

/-- Witness for C6 at a concrete percentage. -/
theorem c6_letter_grade_thresholds_witness :
    (97 : ℚ) ≤ 98 ∧ calculate_letter_grade 98 = "A+" :=
  ⟨by norm_num, c6_letter_grade_thresholds.1 98 (by norm_num)⟩

/-- C7: when the external call made by the AI-enhanced grader fails, the
question is graded by keyword matching with the same criterion; the failure
is absorbed (the grader is a total function on the failure outcome). -/
theorem c7_ai_call_failure_falls_back :
    ∀ (gem : String → Except String String) (fp : String → Option ℚ) (question : Question)
      (student_answer : String) (points_possible : ℚ) (criteria : MarkingCriterion)
      (ai_prompt e : String),
      gem (aiEnhancedPrompt question student_answer points_possible ai_prompt) =
        Except.error e →
      grade_with_ai_enhanced gem fp true question student_answer points_possible criteria
          ai_prompt =
        grade_with_keyword_match gem fp question student_answer points_possible criteria := by
  intro gem fp question student_answer pp criteria ai_prompt e hgem
  simp only [grade_with_ai_enhanced, hgem, Bool.not_true, Bool.false_eq_true, if_false]

/-- Witness for C7: a concrete failing call falls back to keyword grading. -/
theorem c7_ai_call_failure_falls_back_witness :
    noGemini (aiEnhancedPrompt qKw4 "some answer" 4 "") =
        Except.error "Gemini API call failed: connection error" ∧
      grade_with_ai_enhanced noGemini noFloat true qKw4 "some answer" 4 critKw4 "" =
        grade_with_keyword_match noGemini noFloat qKw4 "some answer" 4 critKw4 :=
  ⟨rfl, c7_ai_call_failure_falls_back noGemini noFloat qKw4 "some answer" 4 critKw4 ""
    "Gemini API call failed: connection error" rfl⟩

/-- C8 (amended): the parsed POINTS value is clamped into
`[0, points_possible]` (for a non-negative maximum), and the FEEDBACK text
never exceeds `max_feedback_length + 3 = 503` characters — the source
truncates to 500 characters and then appends a three-character ellipsis, so
the 500-character bound claimed by the spec is off by the ellipsis. -/
theorem c8_parse_clamp_and_truncate :
    ∀ (fp : String → Option ℚ) (response_text : String) (max_points : ℚ), 0 ≤ max_points →
      (0 ≤ (parse_grading_response fp response_text max_points).1 ∧
        (parse_grading_response fp response_text max_points).1 ≤ max_points) ∧
      pyLen (parse_grading_response fp response_text max_points).2 ≤ max_feedback_length + 3 :=
  fun fp t mp hmp => ⟨parse_points_bounds fp t mp hmp, parse_feedback_len fp t mp⟩

set_option maxRecDepth 40000 in
/-- C8 counterexample: a response whose FEEDBACK line carries 501 characters
parses to a feedback of 503 characters, exceeding the claimed 500-character
bound. -/
theorem c8_feedback_can_exceed_500 :
    pyLen (parse_grading_response noFloat longResponse 4).2 = 503 ∧
      max_feedback_length < pyLen (parse_grading_response noFloat longResponse 4).2 := by
  with_unfolding_all decide

/-- Witness for C8 at a concrete response. -/
theorem c8_parse_clamp_and_truncate_witness :
    (0 : ℚ) ≤ 4 ∧
      ((0 ≤ (parse_grading_response noFloat "POINTS: 3" 4).1 ∧
          (parse_grading_response noFloat "POINTS: 3" 4).1 ≤ 4) ∧
        pyLen (parse_grading_response noFloat "POINTS: 3" 4).2 ≤ max_feedback_length + 3) :=
  ⟨by norm_num, c8_parse_clamp_and_truncate noFloat "POINTS: 3" 4 (by norm_num)⟩

/-- C4: for a keyword-match call with a non-empty keyword list, the award is
full points when all keywords match, `min(points_possible,
(m/k)*points_possible*w)` when at least `minK` (default `max(1, k/2)`)
match, and 0 otherwise; the spec's scenario (keywords sun/energy/plants/
light, minK 2, weight 1, 4 points, exactly 2 matches) awards 2.0. -/
theorem c4_keyword_match_formula :
    (∀ (gem : String → Except String String) (fp : String → Option ℚ) (question : Question)
       (student_answer : String) (pp : ℚ) (criteria : MarkingCriterion),
       criteria.keywords ≠ [] →
       (grade_with_keyword_match gem fp question student_answer pp criteria).points_awarded =
         (if criteria.keywords.length ≤ matchCount criteria.keywords (pyLower student_answer)
          then pp
          else if criteria.credit_rules.min_keywords.getD
              (max 1 (criteria.keywords.length / 2)) ≤
              matchCount criteria.keywords (pyLower student_answer) then
            min pp (((matchCount criteria.keywords (pyLower student_answer) : ℚ) /
                (criteria.keywords.length : ℚ)) * pp *
              criteria.credit_rules.keyword_weight.getD 1)
          else 0)) ∧
    matchCount critKw4.keywords (pyLower "the sun gives energy") = 2 ∧
    critKw4.credit_rules.min_keywords.getD (max 1 (critKw4.keywords.length / 2)) = 2 ∧
    (grade_with_keyword_match noGemini noFloat qKw4 "the sun gives energy" 4
        critKw4).points_awarded = 2 := by
  refine ⟨grade_with_keyword_match_points_eq, by decide, by decide, by with_unfolding_all decide⟩

/-- Witness for C4 at the scenario input. -/
theorem c4_keyword_match_formula_witness :
    critKw4.keywords ≠ [] ∧
      (grade_with_keyword_match noGemini noFloat qKw4 "the sun gives energy" 4
          critKw4).points_awarded =
        (if critKw4.keywords.length ≤
            matchCount critKw4.keywords (pyLower "the sun gives energy") then (4 : ℚ)
         else if critKw4.credit_rules.min_keywords.getD
             (max 1 (critKw4.keywords.length / 2)) ≤
             matchCount critKw4.keywords (pyLower "the sun gives energy") then
           min 4 (((matchCount critKw4.keywords (pyLower "the sun gives energy") : ℚ) /
               (critKw4.keywords.length : ℚ)) * 4 *
             critKw4.credit_rules.keyword_weight.getD 1)
         else 0) :=
  ⟨by decide, c4_keyword_match_formula.1 noGemini noFloat qKw4 "the sun gives energy" 4
    critKw4 (by decide)⟩

/-- C9 (amended): keyword-match award is monotone in the matched-keyword set,
provided the keyword weight and points possible are non-negative; with a
negative weight the partial-credit formula is antitone (see the
counterexample). -/
theorem c9_keyword_match_monotone :
    ∀ (gem : String → Except String String) (fp : String → Option ℚ) (question : Question)
      (a1 a2 : String) (pp : ℚ) (criteria : MarkingCriterion),
      0 ≤ pp → 0 ≤ criteria.credit_rules.keyword_weight.getD 1 →
      (∀ kw ∈ criteria.keywords,
        occursIn (pyLower kw).data (pyLower a1).data = true →
        occursIn (pyLower kw).data (pyLower a2).data = true) →
      matchCount criteria.keywords (pyLower a1) < matchCount criteria.keywords (pyLower a2) →
      (grade_with_keyword_match gem fp question a1 pp criteria).points_awarded ≤
        (grade_with_keyword_match gem fp question a2 pp criteria).points_awarded := by
  intro gem fp question a1 a2 pp criteria hpp hw hsub hlt
  have hm12 : matchCount criteria.keywords (pyLower a1) ≤
      matchCount criteria.keywords (pyLower a2) := le_of_lt hlt
  have hkne : criteria.keywords ≠ [] := by
    intro h
    rw [h] at hlt
    simp [matchCount] at hlt
  have hkpos : 0 < criteria.keywords.length := List.length_pos.mpr hkne
  rw [grade_with_keyword_match_points_eq gem fp question a1 pp criteria hkne,
    grade_with_keyword_match_points_eq gem fp question a2 pp criteria hkne]
  set m1 := matchCount criteria.keywords (pyLower a1) with hm1def
  set m2 := matchCount criteria.keywords (pyLower a2) with hm2def
  set k := criteria.keywords.length with hkdef
  set minK := criteria.credit_rules.min_keywords.getD
    (max 1 (criteria.keywords.length / 2)) with hminKdef
  set w := criteria.credit_rules.keyword_weight.getD 1 with hwdef
  have hkQ : (0 : ℚ) < (k : ℚ) := by exact_mod_cast hkpos
  by_cases h2full : k ≤ m2
  · rw [if_pos h2full]
    by_cases h1full : k ≤ m1
    · rw [if_pos h1full]
    · rw [if_neg h1full]
      by_cases h1min : minK ≤ m1
      · rw [if_pos h1min]
        exact min_le_left _ _
      · rw [if_neg h1min]
        exact hpp
  · rw [if_neg h2full]
    have h1full : ¬k ≤ m1 := fun h => h2full (le_trans h hm12)
    rw [if_neg h1full]
    by_cases h2min : minK ≤ m2
    · rw [if_pos h2min]
      by_cases h1min : minK ≤ m1
      · rw [if_pos h1min]
        refine min_le_min le_rfl ?_
        have hdiv : (m1 : ℚ) / (k : ℚ) ≤ (m2 : ℚ) / (k : ℚ) := by
          apply div_le_div_of_nonneg_right ?_ (le_of_lt hkQ)
          exact_mod_cast hm12
        exact mul_le_mul_of_nonneg_right (mul_le_mul_of_nonneg_right hdiv hpp) hw
      · rw [if_neg h1min]
        refine le_min hpp ?_
        exact mul_nonneg (mul_nonneg (div_nonneg (Nat.cast_nonneg _) (le_of_lt hkQ)) hpp) hw
    · have h1min : ¬minK ≤ m1 := fun h => h2min (le_trans h hm12)
      rw [if_neg h2min, if_neg h1min]

/-- C9 counterexample: with keyword weight -1, the answer matching a strict
superset of keywords is awarded strictly fewer points (-2 versus -1). -/
theorem c9_negative_weight_antitone :
    (∀ kw ∈ critNegWeight.keywords,
       occursIn (pyLower kw).data (pyLower "aa").data = true →
       occursIn (pyLower kw).data (pyLower "aa bb").data = true) ∧
    matchCount critNegWeight.keywords (pyLower "aa") <
      matchCount critNegWeight.keywords (pyLower "aa bb") ∧
    (grade_with_keyword_match noGemini noFloat qNegWeight "aa bb" 4
        critNegWeight).points_awarded <
      (grade_with_keyword_match noGemini noFloat qNegWeight "aa" 4
        critNegWeight).points_awarded := by
  with_unfolding_all decide

/-- Witness for C9 at concrete answers with the scenario criterion. -/
theorem c9_keyword_match_monotone_witness :
    ((0 : ℚ) ≤ 4) ∧ (0 ≤ critKw4.credit_rules.keyword_weight.getD 1) ∧
      matchCount critKw4.keywords (pyLower "the sun") <
        matchCount critKw4.keywords (pyLower "the sun gives energy") ∧
      (grade_with_keyword_match noGemini noFloat qKw4 "the sun" 4
          critKw4).points_awarded ≤
        (grade_with_keyword_match noGemini noFloat qKw4 "the sun gives energy" 4
            critKw4).points_awarded :=
  ⟨by norm_num, by decide, by decide,
    c9_keyword_match_monotone noGemini noFloat qKw4 "the sun" "the sun gives energy" 4
      critKw4 (by norm_num) (by decide) (by decide) (by decide)⟩

/-- C10 (amended): every grade produced by the with-scheme single-question
grader satisfies `0 ≤ points_awarded ≤ points_possible`, provided
points_possible is non-negative AND every criterion's keyword weight
(default 1.0) is non-negative; the weight proviso is necessary (see the
counterexample). -/
theorem c10_award_bounds :
    ∀ (gem : String → Except String String) (fp : String → Option ℚ) (gemini_ready : Bool)
      (question : Question) (student_answer : String) (pp : ℚ) (ms : MarkingScheme),
      0 ≤ pp → (∀ c ∈ ms.criteria, 0 ≤ c.credit_rules.keyword_weight.getD 1) →
      0 ≤ (grade_individual_question_with_scheme gem fp gemini_ready question student_answer
          pp ms).points_awarded ∧
        (grade_individual_question_with_scheme gem fp gemini_ready question student_answer
          pp ms).points_awarded ≤ pp :=
  fun gem fp ready question student_answer pp ms hpp hw =>
    grade_individual_question_with_scheme_bounds gem fp ready question student_answer pp ms
      hpp hw

/-- C10 counterexample: with points_possible = 4 ≥ 0 but keyword weight -1,
the with-scheme grader awards negative points. -/
theorem c10_negative_award :
    (0 : ℚ) ≤ 4 ∧
      (grade_individual_question_with_scheme noGemini noFloat true qNegWeight "aa" 4
          schemeNegWeight).points_awarded < 0 := by
  with_unfolding_all decide

/-- Witness for C10 at a concrete scheme. -/
theorem c10_award_bounds_witness :
    ((0 : ℚ) ≤ 4) ∧
      (∀ c ∈ schemeOverflow.criteria, 0 ≤ c.credit_rules.keyword_weight.getD 1) ∧
      (0 ≤ (grade_individual_question_with_scheme noGemini noFloat true qOverflow "Paris" 4
          schemeOverflow).points_awarded ∧
        (grade_individual_question_with_scheme noGemini noFloat true qOverflow "Paris" 4
          schemeOverflow).points_awarded ≤ 4) :=
  ⟨by norm_num, by decide,
    c10_award_bounds noGemini noFloat true qOverflow "Paris" 4 schemeOverflow (by norm_num)
      (by decide)⟩

/-- C1 (amended): in grade_submission (max = sum of the question point
values, each non-negative) the returned percentage lies in [0, 100], and in
both aggregators the percentage is 0 whenever the max possible score is 0;
in the with-scheme path the divisor is the scheme's declared total_points,
and the [0,100] bound fails when that declaration understates the earned
score (see the counterexample). -/
theorem c1_percentage_bounds :
    (∀ (gem : String → Except String String) (fp : String → Option ℚ) (gemini_ready : Bool)
       (questions : List Question) (student_answers : List StudentAnswer),
       (∀ q ∈ questions, 0 ≤ q.points) →
       0 ≤ (grade_submission gem fp gemini_ready questions student_answers).percentage ∧
         (grade_submission gem fp gemini_ready questions student_answers).percentage ≤ 100) ∧
    (∀ (gem : String → Except String String) (fp : String → Option ℚ) (gemini_ready : Bool)
       (questions : List Question) (student_answers : List StudentAnswer),
       (questions.map Question.points).sum = 0 →
       (grade_submission gem fp gemini_ready questions student_answers).percentage = 0) ∧
    (∀ (gem : String → Except String String) (fp : String → Option ℚ) (gemini_ready : Bool)
       (questions : List Question) (student_answers : List StudentAnswer)
       (ms : MarkingScheme), ms.total_points = 0 →
       (grade_submission_with_scheme gem fp gemini_ready questions student_answers
         (some ms)).percentage = 0) :=
  ⟨grade_submission_percentage_bounds, grade_submission_zero_max,
    grade_submission_with_scheme_zero_max⟩

set_option maxRecDepth 200000 in
/-- C1 counterexample: a with-scheme run whose scheme declares 1 total point
while the single question earns 10 returns percentage 1000. -/
theorem c1_with_scheme_percentage_overflow :
    overflowResult.percentage = 1000 ∧ 100 < overflowResult.percentage := by
  with_unfolding_all decide

/-- Witness for C1 on a concrete schemeless submission. -/
theorem c1_percentage_bounds_witness :
    (∀ q ∈ [qAgg1], 0 ≤ q.points) ∧
      (0 ≤ (grade_submission noGemini noFloat true [qAgg1] [⟨"q1", "hi"⟩]).percentage ∧
        (grade_submission noGemini noFloat true [qAgg1] [⟨"q1", "hi"⟩]).percentage ≤ 100) :=
  ⟨by decide, c1_percentage_bounds.1 noGemini noFloat true [qAgg1] [⟨"q1", "hi"⟩] (by decide)⟩

set_option maxRecDepth 200000 in
/-- C2 (amended): the three-question scenario (2+5+10 points, per-question
awards 2, 3 and 6) totals 11 with percentage 64.7, but the letter grade is
"F", not "D": the unrounded 64.70588...% is below the code's 65 threshold
for "D". -/
theorem c2_aggregate_scenario :
    aggResult.success = true ∧ aggResult.total_score = 11 ∧
      aggResult.max_possible_score = 17 ∧ aggResult.percentage = 647 / 10 ∧
      aggResult.grade = some "F" ∧
      (aggResult.detailed_feedback.getD 0 default).points_awarded = 2 ∧
      (aggResult.detailed_feedback.getD 1 default).points_awarded = 3 ∧
      (aggResult.detailed_feedback.getD 2 default).points_awarded = 6 := by
  with_unfolding_all decide

set_option maxRecDepth 200000 in
/-- C2 counterexample: the scenario's letter grade is not "D". -/
theorem c2_grade_not_D :
    aggResult.total_score = 11 ∧ aggResult.percentage = 647 / 10 ∧
      aggResult.grade ≠ some "D" := by
  with_unfolding_all decide

/-- C3 (amended): a question whose id matches no criterion of the supplied
scheme is graded by falling back to direct open-ended AI grading — not an
error — and no default MarkingCriterion is generated (see the
counterexample). -/
theorem c3_missing_criterion_open_ended :
    ∀ (gem : String → Except String String) (fp : String → Option ℚ) (gemini_ready : Bool)
      (question : Question) (student_answer : String) (pp : ℚ) (ms : MarkingScheme),
      ms.criteria.find? (fun c => c.question_id == question.id) = none →
      grade_individual_question_with_scheme gem fp gemini_ready question student_answer pp
          ms =
        grade_open_ended gem fp question student_answer pp := by
  intro gem fp ready question student_answer pp ms hfind
  simp only [grade_individual_question_with_scheme, hfind]

set_option maxRecDepth 40000 in
/-- C3 counterexample: for a concrete question with no criterion in the
scheme, the produced grade records no grading method (no criterion, default
or otherwise, was resolved), whereas grading the same question through its
synthesized default criterion (question_generator._create_default_criteria)
would record keyword_match and produce a different grade. -/
theorem c3_no_default_criterion :
    (grade_individual_question_with_scheme noGemini noFloat true qEssay "something" 5
        schemeNoCrit).grading_method = none ∧
      (grade_individual_question_with_scheme noGemini noFloat true qEssay "something" 5
          schemeDefaultCrit).grading_method = some "keyword_match" ∧
      grade_individual_question_with_scheme noGemini noFloat true qEssay "something" 5
          schemeNoCrit ≠
        grade_individual_question_with_scheme noGemini noFloat true qEssay "something" 5
          schemeDefaultCrit := by
  with_unfolding_all decide

/-- Witness for C3 on a concrete scheme with no matching criterion. -/
theorem c3_missing_criterion_open_ended_witness :
    schemeNoCrit.criteria.find? (fun c => c.question_id == qEssay.id) = none ∧
      grade_individual_question_with_scheme noGemini noFloat true qEssay "something" 5
          schemeNoCrit =
        grade_open_ended noGemini noFloat qEssay "something" 5 :=
  ⟨rfl, c3_missing_criterion_open_ended noGemini noFloat true qEssay "something" 5
    schemeNoCrit rfl⟩

/-- C5: an empty, whitespace-only, or missing student answer produces
exactly the fixed no-answer entry — 0 points awarded, feedback "No answer
provided", no grading method recorded — at that question's position in both
aggregators, for every grader environment (the per-question grading dispatch
is never consulted). -/
theorem c5_blank_answer_zero :
    (∀ (question : Question) (pp : ℚ) (n : Nat),
       (noAnswerGrade question pp n).points_awarded = 0 ∧
         (noAnswerGrade question pp n).feedback = "No answer provided" ∧
         (noAnswerGrade question pp n).grading_method = none) ∧
    (∀ (gem : String → Except String String) (fp : String → Option ℚ)
       (questions : List Question) (student_answers : List StudentAnswer)
       (ms : MarkingScheme) (i : Nat),
       questions ≠ [] → student_answers ≠ [] → i < questions.length →
       pyStrip (answer_lookup student_answers (questions.getD i default).id) = "" →
       (grade_submission gem fp true questions student_answers).detailed_feedback.getD i
           default =
         noAnswerGrade (questions.getD i default) (questions.getD i default).points i ∧
       (grade_submission_with_scheme gem fp true questions student_answers
           (some ms)).detailed_feedback.getD i default =
         noAnswerGrade (questions.getD i default) (questions.getD i default).points i) := by
  constructor
  · intro question pp n
    exact ⟨rfl, rfl, rfl⟩
  · intro gem fp questions student_answers ms i hq hs hi hblank
    have hqe : questions.isEmpty = false := by simpa [List.isEmpty_iff] using hq
    have hse : student_answers.isEmpty = false := by simpa [List.isEmpty_iff] using hs
    constructor
    · unfold grade_submission
      rw [if_neg (by simp), if_neg (by simp [hqe, hse])]
      dsimp only
      have h := gradeQuestions_noanswer_entry (grade_individual_question gem fp)
        student_answers questions 0 i hi hblank
      simpa using h
    · unfold grade_submission_with_scheme
      rw [if_neg (by simp), if_neg (by simp [hqe, hse])]
      dsimp only
      have h := gradeQuestions_noanswer_entry
        (fun question student_answer question_points =>
          grade_individual_question_with_scheme gem fp true question student_answer
            question_points ms)
        student_answers questions 0 i hi hblank
      simpa using h

/-- Witness for C5 at a concrete whitespace answer. -/
theorem c5_blank_answer_zero_witness :
    pyStrip (answer_lookup [⟨"q1", "   "⟩] (([qAgg1].getD 0 default)).id) = "" ∧
      (grade_submission noGemini noFloat true [qAgg1]
          [⟨"q1", "   "⟩]).detailed_feedback.getD 0 default =
        noAnswerGrade ([qAgg1].getD 0 default) ([qAgg1].getD 0 default).points 0 :=
  ⟨by decide,
    (c5_blank_answer_zero.2 noGemini noFloat [qAgg1] [⟨"q1", "   "⟩] schemeNoCrit 0
      (by decide) (by decide) (by decide) (by decide)).1⟩
